import Mathlib

/-!
Verification of the MongoDB MCP server (src/src/mongo/MongoMcp.py): key-pair
acquisition, JWT minting and verification, and the collection tool handlers.
Machine timestamps are modelled as Nat seconds; key material and signatures
are modelled abstractly (a signature records the signing private key, and an
explicit derivation function maps a private key to the public key of its
pair, standing in for the RSA correspondence).
-/

set_option autoImplicit false

/-- An RSA key pair as held by the server. The private key is a SecretStr in
the source; both halves are modelled as plain strings. -/
structure RSAKeyPair where
  private_key : String
  public_key : String
deriving DecidableEq

/-- Relevant process environment: the two injected-secret variables
MCP_PRIVATE_KEY and MCP_PUBLIC_KEY. `none` models an unset variable. -/
structure Env where
  mcpPrivateKey : Option String
  mcpPublicKey : Option String
deriving DecidableEq

/-- Python truthiness of `os.environ.get(...)`: an unset variable is None
(falsy) and the empty string is falsy. -/
def truthy : Option String → Bool
  | none => false
  | some s => !(s == "")

/-- Content of the persisted key file mcp_keypair.json: a record with
private_key and public_key string fields. -/
structure KeyRecord where
  private_key : String
  public_key : String
deriving DecidableEq

/-- Which branch of get_or_create_keypair produced the pair. -/
inductive KeypairPath where
  | injected
  | loadedFromFile
  | generated
deriving DecidableEq

/-- Result of get_or_create_keypair together with its file-system effects:
whether the key file was read or written, and the resulting file state. -/
structure KeypairOutcome where
  keypair : RSAKeyPair
  path : KeypairPath
  fileRead : Bool
  fileWritten : Bool
  fs : Option KeyRecord
deriving DecidableEq

/-- get_or_create_keypair (MongoMcp.py lines 27-59). Reads the two env
variables; if both are truthy it builds the pair from them with no file I/O;
otherwise, if mcp_keypair.json exists it loads the pair from it; otherwise it
generates a fresh pair (`gen` stands for the external RSAKeyPair.generate())
and persists it to the file. -/
def get_or_create_keypair (env : Env) (fs : Option KeyRecord) (gen : RSAKeyPair) :
    KeypairOutcome :=
  if truthy env.mcpPrivateKey && truthy env.mcpPublicKey then
    ⟨⟨env.mcpPrivateKey.getD "", env.mcpPublicKey.getD ""⟩, .injected, false, false, fs⟩
  else
    match fs with
    | some data => ⟨⟨data.private_key, data.public_key⟩, .loadedFromFile, true, false, fs⟩
    | none => ⟨gen, .generated, false, true, some ⟨gen.private_key, gen.public_key⟩⟩

/-- The startup guard at MongoMcp.py line 83: the client token is written to
client_token.txt (and printed) exactly when os.environ.get of MCP_PRIVATE_KEY
is falsy. -/
def writesClientTokenFile (env : Env) : Bool :=
  !(truthy env.mcpPrivateKey)

/-- JWT claim set built by create_long_lived_token: sub, iss, aud, iat, exp. -/
structure TokenPayload where
  sub : String
  iss : String
  aud : String
  iat : Nat
  exp : Nat
deriving DecidableEq

/-- A signed token. `sig` abstracts the RS256 signature: it records which
private key signed the payload. -/
structure Token where
  payload : TokenPayload
  sig : String
deriving DecidableEq

/-- create_long_lived_token (MongoMcp.py lines 62-73): claims with
iat = now and exp = now + expiration_days * 24 * 60 * 60, signed with the
private half of the key pair. `now` models int(time.time()). -/
def create_long_lived_token (keypair : RSAKeyPair) (subject issuer audience : String)
    (now : Nat) (expiration_days : Nat) : Token :=
  ⟨⟨subject, issuer, audience, now, now + expiration_days * 24 * 60 * 60⟩,
    keypair.private_key⟩

/-- The verifier configuration built at MongoMcp.py lines 92-96. -/
structure JWTVerifier where
  public_key : String
  issuer : String
  audience : String
deriving DecidableEq

/-- Verification outcome: validated claims, or rejection. -/
inductive VerifyResult where
  | ok (claims : TokenPayload)
  | authError
deriving DecidableEq

/-- Modelled from the spec: the JWTVerifier check (fastmcp library code, not
in this repository). Verify decodes the token, checks the signature against
the public key (here: the public key derived from the signing private key by
`derivePub`, the abstract RSA pair correspondence, must equal the configured
public key), then checks issuer, audience and expiry (now before exp). On
success it returns the validated claims, otherwise AuthenticationError. -/
def verify (v : JWTVerifier) (derivePub : String → String) (t : Token)
    (now : Nat) : VerifyResult :=
  if derivePub t.sig = v.public_key then
    if t.payload.iss = v.issuer then
      if t.payload.aud = v.audience then
        if now < t.payload.exp then .ok t.payload else .authError
      else .authError
    else .authError
  else .authError

/-- Document field values: the JSON-like scalars the tools move around. -/
inductive BVal where
  | str (s : String)
  | num (n : Int)
  | boolean (b : Bool)
  | null
deriving DecidableEq

/-- A set of named fields (a Python dict), as an association list. -/
abbrev Fields := List (String × BVal)

/-- First-match lookup in a field list, the dict access of the source. -/
def lookupField : Fields → String → Option BVal
  | [], _ => none
  | (k, v) :: rest, key => if k = key then some v else lookupField rest key

/-- A stored document: an opaque unique identifier `oid` (the ObjectId _id of
the store) plus its fields. -/
structure MDoc where
  oid : Nat
  fields : Fields
deriving DecidableEq

/-- Modelled from the spec: the key-filter matching of the external document
store — a document matches a filter when every key named in the filter is
present in the document with the filtered value. -/
def matchesFilter (d : MDoc) (f : Fields) : Bool :=
  f.all (fun kv => lookupField d.fields kv.1 == some kv.2)

/-- Modelled from the spec: find(filter) of the external store returns the
sequence of matching documents, in collection order. -/
def find (st : List MDoc) (f : Fields) : List MDoc :=
  st.filter (fun d => matchesFilter d f)

/-- Modelled from the spec: findOne(filter) returns the first matching
document, or nothing. -/
def find_one : List MDoc → Fields → Option MDoc
  | [], _ => none
  | d :: rest, f => if matchesFilter d f then some d else find_one rest f

/-- Modelled from the spec: countDocuments(filter) returns the number of
matching documents. -/
def count_documents (st : List MDoc) (f : Fields) : Nat :=
  (find st f).length

/-- Modelled from the spec: deleteOne(filter) removes the first matching
document and reports deletedCount (1 or 0), leaving the rest unchanged. -/
def delete_one : List MDoc → Fields → Nat × List MDoc
  | [], _ => (0, [])
  | d :: rest, f =>
    if matchesFilter d f then (1, rest)
    else
      let r := delete_one rest f
      (r.1, d :: r.2)

/-- Set one field: replace the value at the key if present, else append. -/
def applySetField : Fields → String → BVal → Fields
  | [], k, v => [(k, v)]
  | (k2, v2) :: rest, k, v =>
    if k2 = k then (k, v) :: rest else (k2, v2) :: applySetField rest k v

/-- Modelled from the spec: the field-level merge a $set update performs on a
matched document — each field named in the update is set, all others are
kept. -/
def applySet (fs : Fields) (upd : Fields) : Fields :=
  upd.foldl (fun acc kv => applySetField acc kv.1 kv.2) fs

/-- Modelled from the spec: updateOne(filter, set-fields) merges the update
into the first matching document, keeping its identifier, and reports
(matchedCount, modifiedCount); modifiedCount is 0 when the merge leaves the
document unchanged. -/
def update_one : List MDoc → Fields → Fields → Nat × Nat × List MDoc
  | [], _, _ => (0, 0, [])
  | d :: rest, f, u =>
    if matchesFilter d f then
      let newFields := applySet d.fields u
      (1, if newFields = d.fields then 0 else 1, ⟨d.oid, newFields⟩ :: rest)
    else
      let r := update_one rest f u
      (r.1, r.2.1, d :: r.2.2)

/-- A document as returned to the caller: the identifier stringified
(doc with _id replaced by str(_id)), plus the other fields. -/
structure StrDoc where
  sid : String
  fields : Fields
deriving DecidableEq

/-- The per-document conversion in list_content and filter_product. -/
def toStrDoc (d : MDoc) : StrDoc :=
  ⟨toString d.oid, d.fields⟩

/-- list_content (MongoMcp.py lines 100-112): find with no filter, each
document returned with its identifier stringified. -/
def list_content (st : List MDoc) : List StrDoc :=
  (find st []).map toStrDoc

/-- Result of filter_product: the found document, or the structured
not-found value (error message plus the filter that failed to match). -/
inductive FilterResult where
  | found (doc : StrDoc)
  | notFound (filtro : Fields)
deriving DecidableEq

/-- filter_product (MongoMcp.py lines 115-132): find_one; on a hit the
document with stringified identifier, otherwise the structured not-found
result carrying the filter. It never raises. -/
def filter_product (st : List MDoc) (filtro : Fields) : FilterResult :=
  match find_one st filtro with
  | some d => .found (toStrDoc d)
  | none => .notFound filtro

/-- Result of delete_product: the confirmation message, or the not-found
message, each carrying the filter. -/
inductive DeleteResult where
  | deleted (filtro : Fields)
  | notFound (filtro : Fields)
deriving DecidableEq

/-- delete_product (MongoMcp.py lines 150-166): delete_one, then the
confirmation message when deleted_count > 0, else the not-found message. -/
def delete_product (st : List MDoc) (filtro : Fields) : DeleteResult × List MDoc :=
  let r := delete_one st filtro
  if r.1 > 0 then (.deleted filtro, r.2) else (.notFound filtro, r.2)

/-- Result of update_product: the success message carrying modified_count,
or the not-found message carrying the filter. -/
inductive UpdateResult where
  | updated (modified : Nat)
  | notFound (filtro : Fields)
deriving DecidableEq

/-- Whether an update_product outcome is the success message. -/
def isUpdateSuccess : UpdateResult → Bool
  | .updated _ => true
  | .notFound _ => false

/-- update_product (MongoMcp.py lines 169-193): update_one with the update
wrapped in $set; the success message (with modified_count) when
matched_count > 0, else the not-found message. -/
def update_product (st : List MDoc) (filtro actualizacion : Fields) :
    UpdateResult × List MDoc :=
  let r := update_one st filtro actualizacion
  if r.1 > 0 then (.updated r.2.1, r.2.2) else (.notFound filtro, r.2.2)

/-- count_products (MongoMcp.py lines 196-210): a missing filter defaults to
the empty filter, then countDocuments. -/
def count_products (st : List MDoc) (filtro : Option Fields) : Nat :=
  count_documents st (filtro.getD [])

/-- Modelled from the spec: the transport invokes the auth gate before
dispatch — a tool handler runs, and the collection state can change, only
when verify accepts the presented token; on AuthenticationError the call is
rejected with the state untouched. Returns whether the handler ran, and the
resulting state. -/
def gatedCall (v : JWTVerifier) (derivePub : String → String) (t : Token)
    (now : Nat) (handler : List MDoc → List MDoc) (st : List MDoc) :
    Bool × List MDoc :=
  match verify v derivePub t now with
  | .ok _ => (true, handler st)
  | .authError => (false, st)

/-- A sample generated key pair, standing for one output of the external
RSAKeyPair.generate(). -/
def genSample : RSAKeyPair := ⟨"generated-private", "generated-public"⟩

/-- The environment with only MCP_PRIVATE_KEY set: partial injection. -/
def envOnlyPrivate : Env := ⟨some "injected-private", none⟩

/-- Issuer string fixed by the source. -/
def serverIssuer : String := "mongo-mcp-server"

/-- Audience string fixed by the source. -/
def serverAudience : String := "mongo-mcp"

/-- Subject of the administrative token minted at startup. -/
def clientSubject : String := "mongo-client"

/-- Claim C1: minting a token with create_long_lived_token and verifying it
with the matching public key and the same issuer and audience, at any time
before expiry, succeeds and returns the original subject. -/
theorem mint_then_verify_ok (derivePub : String → String) (kp : RSAKeyPair)
    (subject issuer audience : String) (now days tcheck : Nat)
    (hpair : derivePub kp.private_key = kp.public_key)
    (hsub : subject ≠ "") (hiss : issuer ≠ "") (haud : audience ≠ "")
    (hdays : 0 < days)
    (hfresh : tcheck < (create_long_lived_token kp subject issuer audience now days).payload.exp) :
    verify ⟨kp.public_key, issuer, audience⟩ derivePub
        (create_long_lived_token kp subject issuer audience now days) tcheck =
      .ok ⟨subject, issuer, audience, now, now + days * 24 * 60 * 60⟩ := by
  simp only [verify, create_long_lived_token] at hfresh ⊢
  simp [hpair, hfresh]

/-- Claim C2: holding the other conditions valid, verify rejects with
AuthenticationError — and the gated call leaves the handler unrun and the
state untouched — when (a) the signature comes from a different key pair,
(b) the check happens after expiry, (c) the token issuer differs from the
expected issuer, (d) the token audience differs from the expected
audience. -/
theorem verify_rejects_each_invalid_case (derivePub : String → String)
    (kp : RSAKeyPair) (subject expIss expAud : String) (now days tcheck : Nat)
    (hpair : derivePub kp.private_key = kp.public_key)
    (hfresh : tcheck < now + days * 24 * 60 * 60) :
    (∀ kp2 : RSAKeyPair, derivePub kp2.private_key ≠ kp.public_key →
      verify ⟨kp.public_key, expIss, expAud⟩ derivePub
          (create_long_lived_token kp2 subject expIss expAud now days) tcheck = .authError ∧
      ∀ (handler : List MDoc → List MDoc) (st : List MDoc),
        gatedCall ⟨kp.public_key, expIss, expAud⟩ derivePub
            (create_long_lived_token kp2 subject expIss expAud now days) tcheck handler st =
          (false, st)) ∧
    (∀ tlate : Nat, now + days * 24 * 60 * 60 < tlate →
      verify ⟨kp.public_key, expIss, expAud⟩ derivePub
          (create_long_lived_token kp subject expIss expAud now days) tlate = .authError ∧
      ∀ (handler : List MDoc → List MDoc) (st : List MDoc),
        gatedCall ⟨kp.public_key, expIss, expAud⟩ derivePub
            (create_long_lived_token kp subject expIss expAud now days) tlate handler st =
          (false, st)) ∧
    (∀ iss2 : String, iss2 ≠ expIss →
      verify ⟨kp.public_key, expIss, expAud⟩ derivePub
          (create_long_lived_token kp subject iss2 expAud now days) tcheck = .authError ∧
      ∀ (handler : List MDoc → List MDoc) (st : List MDoc),
        gatedCall ⟨kp.public_key, expIss, expAud⟩ derivePub
            (create_long_lived_token kp subject iss2 expAud now days) tcheck handler st =
          (false, st)) ∧
    (∀ aud2 : String, aud2 ≠ expAud →
      verify ⟨kp.public_key, expIss, expAud⟩ derivePub
          (create_long_lived_token kp subject expIss aud2 now days) tcheck = .authError ∧
      ∀ (handler : List MDoc → List MDoc) (st : List MDoc),
        gatedCall ⟨kp.public_key, expIss, expAud⟩ derivePub
            (create_long_lived_token kp subject expIss aud2 now days) tcheck handler st =
          (false, st)) := by
  refine ⟨?_, ?_, ?_, ?_⟩
  · intro kp2 hbad
    have hv : verify ⟨kp.public_key, expIss, expAud⟩ derivePub
        (create_long_lived_token kp2 subject expIss expAud now days) tcheck = .authError := by
      simp [verify, create_long_lived_token, hbad]
    exact ⟨hv, fun handler st => by simp [gatedCall, hv]⟩
  · intro tlate hlate
    have hv : verify ⟨kp.public_key, expIss, expAud⟩ derivePub
        (create_long_lived_token kp subject expIss expAud now days) tlate = .authError := by
      simp [verify, create_long_lived_token, hpair, Nat.lt_asymm hlate]
    exact ⟨hv, fun handler st => by simp [gatedCall, hv]⟩
  · intro iss2 hne
    have hv : verify ⟨kp.public_key, expIss, expAud⟩ derivePub
        (create_long_lived_token kp subject iss2 expAud now days) tcheck = .authError := by
      simp [verify, create_long_lived_token, hpair, hne]
    exact ⟨hv, fun handler st => by simp [gatedCall, hv]⟩
  · intro aud2 hne
    have hv : verify ⟨kp.public_key, expIss, expAud⟩ derivePub
        (create_long_lived_token kp subject expIss aud2 now days) tcheck = .authError := by
      simp [verify, create_long_lived_token, hpair, hne]
    exact ⟨hv, fun handler st => by simp [gatedCall, hv]⟩

/-- Witness for C2 at concrete inputs: each of the four rejection cases
instantiated with explicit bad tokens against the verifier of the source. -/
theorem verify_rejects_each_invalid_case_witness :
    (verify ⟨"k-pub", serverIssuer, serverAudience⟩ (fun s => s ++ "-pub")
        (create_long_lived_token ⟨"x", "x-pub"⟩ clientSubject serverIssuer
          serverAudience 1000 365) 1000 = .authError) ∧
    (verify ⟨"k-pub", serverIssuer, serverAudience⟩ (fun s => s ++ "-pub")
        (create_long_lived_token ⟨"k", "k-pub"⟩ clientSubject serverIssuer
          serverAudience 1000 365) (1000 + 365 * 24 * 60 * 60 + 1) = .authError) ∧
    (verify ⟨"k-pub", serverIssuer, serverAudience⟩ (fun s => s ++ "-pub")
        (create_long_lived_token ⟨"k", "k-pub"⟩ clientSubject "someone-else"
          serverAudience 1000 365) 1000 = .authError) ∧
    (verify ⟨"k-pub", serverIssuer, serverAudience⟩ (fun s => s ++ "-pub")
        (create_long_lived_token ⟨"k", "k-pub"⟩ clientSubject serverIssuer
          "someone-else" 1000 365) 1000 = .authError) := by
  have h := verify_rejects_each_invalid_case (fun s => s ++ "-pub") ⟨"k", "k-pub"⟩
    clientSubject serverIssuer serverAudience 1000 365 1000 (by decide) (by decide)
  exact ⟨(h.1 ⟨"x", "x-pub"⟩ (by decide)).1, (h.2.1 _ (by decide)).1,
    (h.2.2.1 "someone-else" (by decide)).1, (h.2.2.2 "someone-else" (by decide)).1⟩

/-- Witness for C1 at concrete inputs: the startup token of the source
(subject mongo-client, issuer mongo-mcp-server, audience mongo-mcp, 365
days), verified at mint time. -/
theorem mint_then_verify_ok_witness :
    verify ⟨"k-pub", serverIssuer, serverAudience⟩ (fun s => s ++ "-pub")
        (create_long_lived_token ⟨"k", "k-pub"⟩ clientSubject serverIssuer
          serverAudience 1000 365) 1000 =
      .ok ⟨clientSubject, serverIssuer, serverAudience, 1000, 1000 + 365 * 24 * 60 * 60⟩ := by
  have h := mint_then_verify_ok (fun s => s ++ "-pub") ⟨"k", "k-pub"⟩
    clientSubject serverIssuer serverAudience 1000 365 1000
    (by decide) (by decide) (by decide) (by decide) (by decide)
    (by simp [create_long_lived_token])
  simpa using h

/-- Claim C3: get_or_create_keypair follows the priority order injected
secrets, then persisted file, then generation. With both env keys truthy it
returns exactly those keys, with no file read or write and the file state
unchanged; otherwise with an existing key file it loads the pair from it;
otherwise it generates the fresh pair, persists it, and returns it. -/
theorem keypair_priority_order (env : Env) (fs : Option KeyRecord) (gen : RSAKeyPair) :
    (∀ p q : String, env.mcpPrivateKey = some p → env.mcpPublicKey = some q →
      p ≠ "" → q ≠ "" →
      get_or_create_keypair env fs gen = ⟨⟨p, q⟩, .injected, false, false, fs⟩) ∧
    ((truthy env.mcpPrivateKey && truthy env.mcpPublicKey) = false →
      ∀ data : KeyRecord, fs = some data →
      get_or_create_keypair env fs gen =
        ⟨⟨data.private_key, data.public_key⟩, .loadedFromFile, true, false, fs⟩) ∧
    ((truthy env.mcpPrivateKey && truthy env.mcpPublicKey) = false → fs = none →
      get_or_create_keypair env fs gen =
        ⟨gen, .generated, false, true, some ⟨gen.private_key, gen.public_key⟩⟩) := by
  refine ⟨?_, ?_, ?_⟩
  · intro p q hp hq hpne hqne
    simp [get_or_create_keypair, truthy, hp, hq, hpne, hqne]
  · intro hfalse data hdata
    subst hdata
    simp [get_or_create_keypair, hfalse]
  · intro hfalse hfs
    subst hfs
    simp [get_or_create_keypair, hfalse]

/-- Witness for C3 at concrete inputs: one instance of each of the three
branches. -/
theorem keypair_priority_order_witness :
    (get_or_create_keypair ⟨some "p", some "q"⟩ (some ⟨"fp", "fq"⟩) genSample =
      ⟨⟨"p", "q"⟩, .injected, false, false, some ⟨"fp", "fq"⟩⟩) ∧
    (get_or_create_keypair ⟨none, none⟩ (some ⟨"fp", "fq"⟩) genSample =
      ⟨⟨"fp", "fq"⟩, .loadedFromFile, true, false, some ⟨"fp", "fq"⟩⟩) ∧
    (get_or_create_keypair ⟨none, none⟩ none genSample =
      ⟨genSample, .generated, false, true,
        some ⟨genSample.private_key, genSample.public_key⟩⟩) :=
  ⟨(keypair_priority_order ⟨some "p", some "q"⟩ (some ⟨"fp", "fq"⟩) genSample).1
      "p" "q" rfl rfl (by decide) (by decide),
    (keypair_priority_order ⟨none, none⟩ (some ⟨"fp", "fq"⟩) genSample).2.1
      (by decide) ⟨"fp", "fq"⟩ rfl,
    (keypair_priority_order ⟨none, none⟩ none genSample).2.2 (by decide) rfl⟩

/-- Counterexample for C4: with only MCP_PRIVATE_KEY set and no key file,
get_or_create_keypair does not fail at all — it proceeds to generate and
persist a key pair. -/
theorem partial_injection_no_error :
    get_or_create_keypair envOnlyPrivate none genSample =
      ⟨genSample, .generated, false, true,
        some ⟨genSample.private_key, genSample.public_key⟩⟩ := by
  decide

/-- Claim C4 as amended: with exactly one of the two injected secrets
truthy, get_or_create_keypair silently falls through to the file/generate
path, behaving exactly as if no secret were injected, and never takes the
injected path. -/
theorem partial_injection_falls_through (env : Env) (fs : Option KeyRecord)
    (gen : RSAKeyPair)
    (hone : truthy env.mcpPrivateKey ≠ truthy env.mcpPublicKey) :
    get_or_create_keypair env fs gen = get_or_create_keypair ⟨none, none⟩ fs gen ∧
    (get_or_create_keypair env fs gen).path ≠ .injected := by
  have hand : (truthy env.mcpPrivateKey && truthy env.mcpPublicKey) = false := by
    cases h1 : truthy env.mcpPrivateKey <;> cases h2 : truthy env.mcpPublicKey <;>
      simp_all
  have h0 : truthy none = false := rfl
  cases fs <;> simp [get_or_create_keypair, hand, h0]

/-- Witness for the amended C4 at a concrete input: only the private key is
injected, no key file exists, and the call generates a fresh pair just as
with an empty environment. -/
theorem partial_injection_falls_through_witness :
    (get_or_create_keypair envOnlyPrivate none genSample =
      get_or_create_keypair ⟨none, none⟩ none genSample) ∧
    (get_or_create_keypair envOnlyPrivate none genSample).path ≠ .injected :=
  partial_injection_falls_through envOnlyPrivate none genSample (by decide)

/-- Claim C5: with no injected secrets and no persisted record, the first
call generates and persists a pair, and a second call in the resulting
environment loads a pair equal to the generated one. -/
theorem generate_persist_reload_roundtrip (env : Env) (gen gen2 : RSAKeyPair)
    (hpriv : env.mcpPrivateKey = none) (hpub : env.mcpPublicKey = none) :
    (get_or_create_keypair env none gen).path = .generated ∧
    (get_or_create_keypair env none gen).fileWritten = true ∧
    (get_or_create_keypair env (get_or_create_keypair env none gen).fs gen2).path =
      .loadedFromFile ∧
    (get_or_create_keypair env (get_or_create_keypair env none gen).fs gen2).keypair =
      (get_or_create_keypair env none gen).keypair := by
  simp [get_or_create_keypair, truthy, hpriv]

/-- Witness for C5 at a concrete input: empty environment, a sample
generated pair, and a different candidate pair for the second call. -/
theorem generate_persist_reload_roundtrip_witness :
    (get_or_create_keypair ⟨none, none⟩ none genSample).path = .generated ∧
    (get_or_create_keypair ⟨none, none⟩ none genSample).fileWritten = true ∧
    (get_or_create_keypair ⟨none, none⟩
        (get_or_create_keypair ⟨none, none⟩ none genSample).fs ⟨"g2", "g2-pub"⟩).path =
      .loadedFromFile ∧
    (get_or_create_keypair ⟨none, none⟩
        (get_or_create_keypair ⟨none, none⟩ none genSample).fs ⟨"g2", "g2-pub"⟩).keypair =
      (get_or_create_keypair ⟨none, none⟩ none genSample).keypair :=
  generate_persist_reload_roundtrip ⟨none, none⟩ genSample ⟨"g2", "g2-pub"⟩ rfl rfl

/-- Counterexample for C6: with only MCP_PRIVATE_KEY set, the key pair is
not injected (it is generated), yet the startup code does not write the
client token file — refuting the claimed equivalence between writing the
file and the pair not being injected. -/
theorem token_file_write_counterexample :
    (get_or_create_keypair envOnlyPrivate none genSample).path ≠ .injected ∧
    writesClientTokenFile envOnlyPrivate = false := by
  decide

/-- Claim C6 as amended: the client token file is written exactly when the
injected private-key variable is absent or empty. Since the injected path
requires a truthy private key, an injected pair implies no write; but a
partially supplied private key alone also suppresses the write. -/
theorem token_file_write_condition (env : Env) :
    (env.mcpPrivateKey = none → writesClientTokenFile env = true) ∧
    (∀ s : String, env.mcpPrivateKey = some s →
      (writesClientTokenFile env = true ↔ s = "")) ∧
    (∀ (fs : Option KeyRecord) (gen : RSAKeyPair),
      (get_or_create_keypair env fs gen).path = .injected →
      writesClientTokenFile env = false) := by
  refine ⟨?_, ?_, ?_⟩
  · intro h
    simp [writesClientTokenFile, truthy, h]
  · intro s h
    simp [writesClientTokenFile, truthy, h]
  · intro fs gen hinj
    cases h1 : truthy env.mcpPrivateKey
    · exfalso
      have hand : (truthy env.mcpPrivateKey && truthy env.mcpPublicKey) = false := by
        simp [h1]
      cases fs <;> simp [get_or_create_keypair, hand] at hinj
    · simp [writesClientTokenFile, h1]

/-- Witness for the amended C6 at concrete inputs: an empty environment
writes the token file; a fully injected environment does not. -/
theorem token_file_write_condition_witness :
    writesClientTokenFile ⟨none, none⟩ = true ∧
    writesClientTokenFile ⟨some "ip", some "iq"⟩ = false :=
  ⟨(token_file_write_condition ⟨none, none⟩).1 rfl,
    (token_file_write_condition ⟨some "ip", some "iq"⟩).2.2 none genSample (by decide)⟩

/-- A filter with no criteria matches every document. -/
theorem filter_matchesFilter_nil (st : List MDoc) :
    st.filter (fun d => matchesFilter d []) = st := by
  induction st with
  | nil => rfl
  | cons d rest ih => simp [List.filter, matchesFilter, ih]

/-- find_one returns nothing exactly when no document matches. -/
theorem find_one_none_iff (st : List MDoc) (f : Fields) :
    find_one st f = none ↔ ∀ d ∈ st, matchesFilter d f = false := by
  induction st with
  | nil => simp [find_one]
  | cons x rest ih =>
    cases hm : matchesFilter x f
    · simp [find_one, hm, ih]
    · simp [find_one, hm]

/-- deleteOne on a filter matching nothing reports 0 and keeps the state. -/
theorem delete_one_no_match (st : List MDoc) (f : Fields)
    (h : ∀ d ∈ st, matchesFilter d f = false) :
    delete_one st f = (0, st) := by
  induction st with
  | nil => simp [delete_one]
  | cons x rest ih =>
    have hx := h x (List.mem_cons_self x rest)
    have hr := ih (fun d hd => h d (List.mem_cons_of_mem x hd))
    simp [delete_one, hx, hr]

/-- updateOne on a filter matching nothing reports (0, 0) and keeps the
state. -/
theorem update_one_no_match (st : List MDoc) (f u : Fields)
    (h : ∀ d ∈ st, matchesFilter d f = false) :
    update_one st f u = (0, 0, st) := by
  induction st with
  | nil => simp [update_one]
  | cons x rest ih =>
    have hx := h x (List.mem_cons_self x rest)
    have hr := ih (fun d hd => h d (List.mem_cons_of_mem x hd))
    simp [update_one, hx, hr]

/-- Setting one field leaves lookups at every other key unchanged. -/
theorem lookupField_applySetField_ne (fs : Fields) (k : String) (v : BVal)
    (key : String) (h : ¬ k = key) :
    lookupField (applySetField fs k v) key = lookupField fs key := by
  induction fs with
  | nil => simp [applySetField, lookupField, h]
  | cons p rest ih =>
    obtain ⟨k2, v2⟩ := p
    by_cases h2 : k2 = k
    · subst h2
      simp [applySetField, lookupField, h]
    · by_cases h3 : k2 = key
      · subst h3
        simp [applySetField, h2, lookupField]
      · simp [applySetField, h2, lookupField, h3, ih]

/-- The $set merge leaves lookups at keys not named in the update
unchanged. -/
theorem lookupField_applySet_none (u : Fields) (fs : Fields) (key : String)
    (h : lookupField u key = none) :
    lookupField (applySet fs u) key = lookupField fs key := by
  induction u generalizing fs with
  | nil => rfl
  | cons p rest ih =>
    obtain ⟨k1, v1⟩ := p
    have hk : ¬ k1 = key := by
      intro hk
      simp [lookupField, hk] at h
    have hrest : lookupField rest key = none := by
      simpa [lookupField, hk] using h
    have hstep : applySet fs ((k1, v1) :: rest) = applySet (applySetField fs k1 v1) rest := rfl
    rw [hstep, ih (applySetField fs k1 v1) hrest]
    exact lookupField_applySetField_ne fs k1 v1 key hk

/-- The document matched by find_one appears in the updateOne result with
the $set merge applied and its identifier kept. -/
theorem update_one_mem (st : List MDoc) (f u : Fields) (d : MDoc)
    (h : find_one st f = some d) :
    (⟨d.oid, applySet d.fields u⟩ : MDoc) ∈ (update_one st f u).2.2 := by
  induction st with
  | nil => simp [find_one] at h
  | cons x rest ih =>
    cases hm : matchesFilter x f
    · rw [find_one] at h
      rw [hm] at h
      simp at h
      simp [update_one, hm]
      exact Or.inr (ih h)
    · rw [find_one] at h
      rw [hm] at h
      simp at h
      subst h
      simp [update_one, hm]

/-- The state component of update_product is exactly the updateOne output
state, in both the matched and the unmatched branch. -/
theorem update_product_state (st : List MDoc) (f u : Fields) :
    (update_product st f u).2 = (update_one st f u).2.2 := by
  simp only [update_product]
  split <;> rfl

/-- When find_one matches, updateOne reports matchedCount 1, and
modifiedCount 0 when the merge leaves the document unchanged. -/
theorem update_one_matched (st : List MDoc) (f u : Fields) (d : MDoc)
    (h : find_one st f = some d) :
    (update_one st f u).1 = 1 ∧
    (applySet d.fields u = d.fields → (update_one st f u).2.1 = 0) := by
  induction st with
  | nil => simp [find_one] at h
  | cons x rest ih =>
    cases hm : matchesFilter x f
    · rw [find_one] at h
      rw [hm] at h
      simp at h
      have := ih h
      simp [update_one, hm, this.1]
      exact this.2
    · rw [find_one] at h
      rw [hm] at h
      simp at h
      subst h
      constructor
      · simp [update_one, hm]
      · intro heq
        simp [update_one, hm, heq]

/-- Claim C7: for every collection state, count_products with the empty
filter (passed explicitly or defaulted from a missing argument) equals the
length of the list returned by list_content. -/
theorem count_empty_filter_eq_list_length (st : List MDoc) :
    count_products st none = (list_content st).length ∧
    count_products st (some []) = (list_content st).length := by
  constructor <;>
    simp [count_products, count_documents, list_content, find,
      filter_matchesFilter_nil st]

/-- Claim C8: on a filter matching no document, filter_product returns the
structured not-found result carrying the filter and never raises, and
delete_product and update_product return their not-found results with the
collection state unchanged. -/
theorem not_found_structured_results (st : List MDoc) (filtro u : Fields)
    (hz : ∀ d ∈ st, matchesFilter d filtro = false) :
    filter_product st filtro = .notFound filtro ∧
    delete_product st filtro = (.notFound filtro, st) ∧
    update_product st filtro u = (.notFound filtro, st) := by
  have hf : find_one st filtro = none := (find_one_none_iff st filtro).mpr hz
  have hd := delete_one_no_match st filtro hz
  have hu := update_one_no_match st filtro u hz
  refine ⟨?_, ?_, ?_⟩
  · simp [filter_product, hf]
  · simp [delete_product, hd]
  · simp [update_product, hu]

/-- Witness for C8 at concrete inputs: a one-document collection and a
filter on a product id it does not carry. -/
theorem not_found_structured_results_witness :
    filter_product [⟨7, [("idProducto", BVal.num 1)]⟩] [("idProducto", BVal.num 2)] =
      .notFound [("idProducto", BVal.num 2)] ∧
    delete_product [⟨7, [("idProducto", BVal.num 1)]⟩] [("idProducto", BVal.num 2)] =
      (.notFound [("idProducto", BVal.num 2)], [⟨7, [("idProducto", BVal.num 1)]⟩]) ∧
    update_product [⟨7, [("idProducto", BVal.num 1)]⟩] [("idProducto", BVal.num 2)]
        [("nombre", BVal.str "Y")] =
      (.notFound [("idProducto", BVal.num 2)], [⟨7, [("idProducto", BVal.num 1)]⟩]) :=
  not_found_structured_results [⟨7, [("idProducto", BVal.num 1)]⟩]
    [("idProducto", BVal.num 2)] [("nombre", BVal.str "Y")] (by decide)

/-- Claim C9: update_product performs a field-level merge. The matched
document reappears in the result state with the same identifier and with
its fields merged by applySet, so every field not named in the update keeps
its previous value; the document is never replaced wholesale. -/
theorem update_is_field_merge (st : List MDoc) (f u : Fields) (d : MDoc)
    (h : find_one st f = some d) :
    ∃ d2 : MDoc, d2 ∈ (update_product st f u).2 ∧ d2.oid = d.oid ∧
      d2.fields = applySet d.fields u ∧
      ∀ key : String, lookupField u key = none →
        lookupField d2.fields key = lookupField d.fields key := by
  refine ⟨⟨d.oid, applySet d.fields u⟩, ?_, rfl, rfl, ?_⟩
  · rw [update_product_state]
    exact update_one_mem st f u d h
  · intro key hk
    exact lookupField_applySet_none u d.fields key hk

/-- Witness for C9 at concrete inputs: updating the name of a matched
product; the price field, not named in the update, keeps its value. -/
theorem update_is_field_merge_witness :
    ∃ d2 : MDoc,
      d2 ∈ (update_product
          [⟨3, [("idProducto", BVal.num 1), ("nombre", BVal.str "X"),
            ("precioUnitarioUSD", BVal.num 40)]⟩]
          [("idProducto", BVal.num 1)] [("nombre", BVal.str "Y")]).2 ∧
      d2.oid = 3 ∧
      d2.fields = applySet
        [("idProducto", BVal.num 1), ("nombre", BVal.str "X"),
          ("precioUnitarioUSD", BVal.num 40)] [("nombre", BVal.str "Y")] ∧
      ∀ key : String, lookupField [("nombre", BVal.str "Y")] key = none →
        lookupField d2.fields key =
          lookupField [("idProducto", BVal.num 1), ("nombre", BVal.str "X"),
            ("precioUnitarioUSD", BVal.num 40)] key :=
  update_is_field_merge
    [⟨3, [("idProducto", BVal.num 1), ("nombre", BVal.str "X"),
      ("precioUnitarioUSD", BVal.num 40)]⟩]
    [("idProducto", BVal.num 1)] [("nombre", BVal.str "Y")]
    ⟨3, [("idProducto", BVal.num 1), ("nombre", BVal.str "X"),
      ("precioUnitarioUSD", BVal.num 40)]⟩ (by decide)

/-- Claim C10 (implicit): update_product reports success exactly when the
filter matched at least one document, independently of the modified count;
setting fields to the values a matched document already holds reports
success with 0 modifications, not the not-found result. -/
theorem update_success_iff_matched (st : List MDoc) (f u : Fields) :
    isUpdateSuccess (update_product st f u).1 = (find_one st f).isSome ∧
    ∀ d : MDoc, find_one st f = some d → applySet d.fields u = d.fields →
      (update_product st f u).1 = .updated 0 := by
  constructor
  · cases hf : find_one st f with
    | some d =>
      have hm := (update_one_matched st f u d hf).1
      simp [update_product, hm, isUpdateSuccess]
    | none =>
      have hz := (find_one_none_iff st f).mp hf
      have hu := update_one_no_match st f u hz
      simp [update_product, hu, isUpdateSuccess]
  · intro d hf heq
    have h1 := (update_one_matched st f u d hf).1
    have h2 := (update_one_matched st f u d hf).2 heq
    simp [update_product, h1, h2]

/-- Witness for C10 at concrete inputs: setting nombre to the value it
already holds on the matched document reports success with 0
modifications. -/
theorem update_success_iff_matched_witness :
    (update_product [⟨3, [("idProducto", BVal.num 1), ("nombre", BVal.str "X")]⟩]
        [("idProducto", BVal.num 1)] [("nombre", BVal.str "X")]).1 =
      .updated 0 :=
  (update_success_iff_matched
      [⟨3, [("idProducto", BVal.num 1), ("nombre", BVal.str "X")]⟩]
      [("idProducto", BVal.num 1)] [("nombre", BVal.str "X")]).2
    ⟨3, [("idProducto", BVal.num 1), ("nombre", BVal.str "X")]⟩
    (by decide) (by decide)
